import Mathlib

/-!
Shallow embedding of `AppStoreScreenshots/add_overlays.py` (the Romanian Septica
App Store screenshot overlay generator) together with theorems about its
behaviour.

Modelling conventions:
* Python floats appearing in the script (`0.3`, `0.4`, `0.05`, `0.06`, `0.08`,
  `0.045`, `0.035`, `0.025`, `0.85`, `0.88`, `0.1`, opacity values) are modelled
  as exact rationals; at the magnitudes used by the script the double-precision
  evaluation and the exact rational evaluation truncate to the same integers.
* Python `int()` truncates toward zero; this is `pyInt` below.
* PIL is external to the repository.  The parts of PIL whose behaviour the
  script depends on are modelled from their documented semantics:
  `ImageDraw.rectangle` fills a box inclusive of both corner points,
  `Image.alpha_composite` applies the straight-alpha over operator and copies
  the destination pixel verbatim when the source alpha is 0 (the short-circuit
  in Pillow's `AlphaComposite.c`), `Image.convert` keeps the pixel grid and
  only changes the channel interpretation.  Glyph rasterisation by
  `ImageDraw.text` is kept abstract: the environment supplies an arbitrary
  rendering function that rewrites the pixel grid in place.
* Filesystem state (which font files, raw directories, raw screenshots and the
  metadata file exist, and what `Image.open` yields) is an explicit `Env`
  record; `Option` models calls that may raise.
-/

namespace AppStoreScreenshots

/-- Python `int()` on a rational: truncation toward zero, computed on the
reduced fraction (`Int.tdiv` is T-division, rounding toward zero). -/
def pyInt (q : ℚ) : ℤ :=
  Int.tdiv q.num (q.den : ℤ)

/-- A pixel with red, green, blue and alpha channels (PIL stores bytes; the
channel values the script produces are modelled as integers). -/
structure RGBA where
  r : ℤ
  g : ℤ
  b : ℤ
  a : ℤ
deriving DecidableEq

/-- The two PIL pixel modes the script uses. -/
inductive Mode where
  | RGB
  | RGBA
deriving DecidableEq

/-- A PIL image: a mode, pixel dimensions, and a pixel grid.  The grid is
total over ℤ × ℤ; only coordinates inside the width × height box are
meaningful, which suffices for the frame and dimension properties. -/
structure Img where
  mode : Mode
  width : ℕ
  height : ℕ
  pix : ℤ → ℤ → RGBA

/-- PIL `Image.convert`: converting to the same mode keeps the pixels; converting
between `RGB` and `RGBA` keeps the colour channels (PIL drops the alpha
channel going to `RGB`, and fills alpha with 255 going from `RGB`; an opaque
`RGB` pixel is represented with alpha 255). -/
def Img.convert (im : Img) (m : Mode) : Img :=
  { mode := m, width := im.width, height := im.height,
    pix := if im.mode = m then im.pix
           else fun p q => { im.pix p q with a := 255 } }

/-- The `start_color` argument of `add_gradient_overlay`: either a channel
tuple or a hex string (line 90 of the script branches on
`isinstance(start_color, tuple)`). -/
inductive ColorSpec where
  | rgb (r g b : ℤ)
  | hex (s : String)
deriving DecidableEq

/-- Value of one hexadecimal digit, as Python `int(c, 16)` computes it. -/
def hexDigitVal (c : Char) : ℕ :=
  if ('0' ≤ c ∧ c ≤ '9') then c.toNat - 48
  else if ('a' ≤ c ∧ c ≤ 'f') then c.toNat - 87
  else if ('A' ≤ c ∧ c ≤ 'F') then c.toNat - 55
  else 0

/-- Python `int(start_color[1:][i:i+2], 16)`: parse the two-character slice starting
at offset `i` of the string with its leading `#` removed. -/
def hexByteAt (s : String) (i : ℕ) : ℕ :=
  match (s.toList.drop 1).drop i with
  | c1 :: c2 :: _ => 16 * hexDigitVal c1 + hexDigitVal c2
  | [c1] => hexDigitVal c1
  | [] => 0

/-- Normalise a colour argument to its channel triple, as line 90 of
`add_gradient_overlay` does. -/
def ColorSpec.toRGB : ColorSpec → ℤ × ℤ × ℤ
  | ColorSpec.rgb r g b => (r, g, b)
  | ColorSpec.hex s => ((hexByteAt s 0 : ℤ), (hexByteAt s 2 : ℤ), (hexByteAt s 4 : ℤ))

/-- PIL `ImageDraw.rectangle([x0, y0, x1, y1], fill=c)`: PIL fills the box
inclusive of both corner points. -/
def fillRect (pix : ℤ → ℤ → RGBA) (x0 y0 x1 y1 : ℤ) (c : RGBA) : ℤ → ℤ → RGBA :=
  fun p q => if x0 ≤ p ∧ p ≤ x1 ∧ y0 ≤ q ∧ q ≤ y1 then c else pix p q

/-- The fill colour of strip `i` of the gradient loop (lines 89-90):
`alpha = int(opacity * 255 * (1 - i / height))` attached to the normalised
start colour. -/
def gradient_strip_color (start_color : ColorSpec) (opacity : ℚ) (height i : ℕ) : RGBA :=
  { r := start_color.toRGB.1
    g := start_color.toRGB.2.1
    b := start_color.toRGB.2.2
    a := pyInt (opacity * 255 * (1 - (i : ℚ) / (height : ℚ))) }

/-- The strip loop of `add_gradient_overlay` (lines 88-91): drawing the first
`n` strips (`i = 0 .. n-1`) on top of `pix`, strip `i` filling the box
`[x, y(+)i, x+width, y+i+1]`; later strips are drawn over earlier ones.
`height` is the Python `height` variable used in the alpha formula; the loop
itself runs `range(height)`, so the two coincide at the call site. -/
def draw_gradient_strips (x y xw : ℤ) (opacity : ℚ) (start_color : ColorSpec)
    (height : ℕ) : ℕ → (ℤ → ℤ → RGBA) → ℤ → ℤ → RGBA
  | 0, pix => pix
  | n + 1, pix =>
      fillRect (draw_gradient_strips x y xw opacity start_color height n pix)
        x (y + (n : ℤ)) xw (y + (n : ℤ) + 1)
        (gradient_strip_color start_color opacity height n)

/-- The overlay image built inside `add_gradient_overlay` (lines 81-91):
`Image.new('RGBA', image.size, (0, 0, 0, 0))` with the gradient strips drawn
onto it.  `size.2.toNat` is the number of `range(height)` iterations (none
when `height ≤ 0`). -/
def gradient_overlay_img (base_size : ℕ × ℕ) (start_color : ColorSpec)
    (position size : ℤ × ℤ) (opacity : ℚ) : Img :=
  { mode := Mode.RGBA, width := base_size.1, height := base_size.2,
    pix := draw_gradient_strips position.1 position.2 (position.1 + size.1)
             opacity start_color size.2.toNat size.2.toNat
             (fun _ _ => { r := 0, g := 0, b := 0, a := 0 }) }

/-- PIL `Image.alpha_composite` on one pixel: Pillow's `AlphaComposite.c` copies
the destination pixel verbatim when the source alpha is 0, and otherwise
applies the straight-alpha over operator (its fixed-point arithmetic is
modelled by exact rational arithmetic with rounding). -/
def alpha_composite_pix (dst src : RGBA) : RGBA :=
  if src.a = 0 then dst
  else
    let sa : ℚ := src.a
    let da : ℚ := dst.a
    let oa : ℚ := sa + da * (255 - sa) / 255
    { r := round (((src.r : ℚ) * sa + (dst.r : ℚ) * da * (255 - sa) / 255) / oa)
      g := round (((src.g : ℚ) * sa + (dst.g : ℚ) * da * (255 - sa) / 255) / oa)
      b := round (((src.b : ℚ) * sa + (dst.b : ℚ) * da * (255 - sa) / 255) / oa)
      a := round oa }

/-- The font object chosen by `create_overlay_text`: a truetype font loaded
from a path at a size, or PIL's built-in default font. -/
inductive Font where
  | truetype (path : String) (size : ℤ)
  | default
deriving DecidableEq

/-- One observable action of a processing routine: a gradient pass, a
`draw.text` pass, or the final `save`. -/
inductive Op where
  | gradient (position size : ℤ × ℤ) (opacity : ℚ)
  | text (font : Font) (content : String) (position : ℤ × ℤ) (font_size : ℤ)
      (color : String) (stroke_width : ℕ) (stroke_fill : Option String)
  | save (format : String) (quality : ℕ)
deriving DecidableEq

def Op.isGradientOp : Op → Bool
  | Op.gradient _ _ _ => true
  | _ => false

def Op.textContentOf : Op → Option String
  | Op.text _ content _ _ _ _ _ => some content
  | _ => none

def Op.textColorOf : Op → Option String
  | Op.text _ _ _ _ color _ _ => some color
  | _ => none

def Op.textFontSizeOf : Op → Option ℤ
  | Op.text _ _ _ font_size _ _ _ => some font_size
  | _ => none

def Op.textFontOf : Op → Option Font
  | Op.text font _ _ _ _ _ _ => some font
  | _ => none

/-- The pixel-level effect of `ImageDraw.text` (glyph rasterisation is inside
PIL, external to the repository): given the font, text, position, fill colour,
stroke width and stroke colour, rewrite the pixel grid in place. -/
abbrev RenderText :=
  Font → String → ℤ × ℤ → String → ℕ → Option String → (ℤ → ℤ → RGBA) → ℤ → ℤ → RGBA

/-- The parsed contents of `screenshot_metadata.json`. -/
abbrev Metadata := List (String × String)

/-- The ambient state the script interacts with: which font files exist
(`os.path.exists`), whether `ImageFont.truetype` succeeds on a path and size,
the glyph rasteriser, which per-device raw directories and raw screenshots
exist, and what `Image.open` yields for a raw screenshot (`none` models a
raised exception). -/
structure Env where
  pathExists : String → Bool
  truetypeOk : String → ℤ → Bool
  render : RenderText
  rawDirExists : String → Bool
  rawExists : String → String → Bool
  openRaw : String → String → Option Img

/-- The fixed font search list of `get_font_path` (lines 44-49). -/
def font_paths : List String :=
  ["/System/Library/Fonts/Helvetica.ttc",
   "/System/Library/Fonts/Arial.ttf",
   "/Library/Fonts/Arial.ttf",
   "/System/Library/Fonts/Geneva.ttf"]

/-- Embedding of `get_font_path` (lines 41-56): the first existing path of the fixed list,
`None` otherwise.  The `weight` argument is accepted and ignored. -/
def get_font_path (env : Env) (weight : String) : Option String :=
  font_paths.find? (fun path => env.pathExists path)

/-- Embedding of `create_overlay_text` (lines 58-77): choose a font (truetype from
`get_font_path` when a path exists and loading succeeds, PIL's default
otherwise; any font-loading exception falls back to the default), then draw
the text with a stroke when `stroke_width > 0 and stroke_fill`, plainly
otherwise.  Returns the updated image together with the `draw.text` action
performed. -/
def create_overlay_text (env : Env) (image : Img) (text : String) (position : ℤ × ℤ)
    (font_size : ℤ) (color : String) (weight : String) (stroke_width : ℕ)
    (stroke_fill : Option String) : Img × Op :=
  let font : Font :=
    match get_font_path env weight with
    | some font_path =>
        if env.truetypeOk font_path font_size then Font.truetype font_path font_size
        else Font.default
    | none => Font.default
  let sw : ℕ := if 0 < stroke_width ∧ stroke_fill.isSome then stroke_width else 0
  let sf : Option String := if 0 < stroke_width ∧ stroke_fill.isSome then stroke_fill else none
  ({ image with pix := env.render font text position color sw sf image.pix },
   Op.text font text position font_size color sw sf)

/-- Embedding of `add_gradient_overlay` (lines 79-94): build the transparent overlay, draw
the per-row strips, alpha-composite it over `image.convert('RGBA')` and
flatten with `.convert('RGB')`.  `end_color` is accepted and never used, as in
the source.  Returns the new image together with the gradient action. -/
def add_gradient_overlay (image : Img) (start_color end_color : ColorSpec)
    (position size : ℤ × ℤ) (opacity : ℚ) : Img × Op :=
  let overlay := gradient_overlay_img (image.width, image.height) start_color position size opacity
  let base := image.convert Mode.RGBA
  ((({ mode := Mode.RGBA, width := image.width, height := image.height,
       pix := fun p q => alpha_composite_pix (base.pix p q) (overlay.pix p q) } : Img).convert
      Mode.RGB),
   Op.gradient position size opacity)

/- Colour constants (lines 15-24). -/

def ROMANIAN_BLUE : String := "#004C9F"

def ROMANIAN_YELLOW : String := "#FCD535"

def ROMANIAN_RED : String := "#CE1126"

def ROMANIAN_COLORS : List String := [ROMANIAN_BLUE, ROMANIAN_YELLOW, ROMANIAN_RED]

def APP_STORE_BLACK : String := "#000000"

def APP_STORE_WHITE : String := "#FFFFFF"

def APP_STORE_GRAY : String := "#8E8E93"

/-!
The six per-category processing routines (lines 96-363).  Each takes the
result of `Image.open(input_path)` (`none` when opening raised — the
`try`/`except` of the routine then logs and produces no output) and the
device-type label, and yields the image written by `save` together with the
list of actions performed, or `none` when the body raised.
-/

/-- Embedding of `process_main_menu_screenshot` (lines 96-166). -/
def process_main_menu_screenshot (env : Env) (input : Option Img)
    (device_type : String) : Option (Img × List Op) :=
  match input with
  | none => none
  | some image0 =>
    let width := image0.width
    let height := image0.height
    let image1 := image0.convert Mode.RGBA
    let gradient_height : ℤ := pyInt ((height : ℚ) * 0.3)
    let g := add_gradient_overlay image1 (ColorSpec.rgb 0 0 0) (ColorSpec.rgb 0 0 0)
      (0, 0) ((width : ℤ), gradient_height) 0.4
    let title_font_size : ℤ :=
      if device_type.startsWith "iPhone" then pyInt ((width : ℚ) * 0.08)
      else pyInt ((width : ℚ) * 0.06)
    let subtitle_font_size : ℤ :=
      if device_type.startsWith "iPhone" then pyInt ((width : ℚ) * 0.045)
      else pyInt ((width : ℚ) * 0.035)
    let title_y : ℤ := pyInt ((height : ℚ) * 0.1)
    let t := create_overlay_text env g.1 "Experience Authentic Romanian Card Gaming"
      (pyInt ((width : ℚ) * 0.05), title_y) title_font_size APP_STORE_WHITE "bold" 2
      (some APP_STORE_BLACK)
    let subtitle_y : ℤ := title_y + title_font_size + 10
    let s := create_overlay_text env t.1 "Jocul Tradițional Românesc"
      (pyInt ((width : ℚ) * 0.05), subtitle_y) subtitle_font_size ROMANIAN_YELLOW "regular" 1
      (some APP_STORE_BLACK)
    let feature_y : ℤ := pyInt ((height : ℚ) * 0.85)
    let feature_font_size : ℤ :=
      if device_type.startsWith "iPhone" then pyInt ((width : ℚ) * 0.035)
      else pyInt ((width : ℚ) * 0.025)
    let f := create_overlay_text env s.1
      "• Authentic Romanian Rules • Premium AI Opponent • Cultural Heritage Design"
      (pyInt ((width : ℚ) * 0.05), feature_y) feature_font_size APP_STORE_WHITE "regular" 1
      (some APP_STORE_BLACK)
    some (f.1.convert Mode.RGB, [g.2, t.2, s.2, f.2, Op.save "PNG" 95])

/-- Embedding of `process_gameplay_screenshot` (lines 168-207). -/
def process_gameplay_screenshot (env : Env) (input : Option Img)
    (device_type : String) : Option (Img × List Op) :=
  match input with
  | none => none
  | some image0 =>
    let width := image0.width
    let height := image0.height
    let image1 := image0.convert Mode.RGBA
    let title_font_size : ℤ :=
      if device_type.startsWith "iPhone" then pyInt ((width : ℚ) * 0.06)
      else pyInt ((width : ℚ) * 0.045)
    let t := create_overlay_text env image1 "7s Beat Any Card - Traditional Romanian Rules"
      (pyInt ((width : ℚ) * 0.05), pyInt ((height : ℚ) * 0.08)) title_font_size ROMANIAN_RED
      "bold" 2 (some APP_STORE_WHITE)
    let rule_font_size : ℤ :=
      if device_type.startsWith "iPhone" then pyInt ((width : ℚ) * 0.035)
      else pyInt ((width : ℚ) * 0.025)
    let r := create_overlay_text env t.1
      "Șaptele bate orice carte • Authentic Romanian Strategy"
      (pyInt ((width : ℚ) * 0.05), pyInt ((height : ℚ) * 0.88)) rule_font_size APP_STORE_WHITE
      "regular" 1 (some APP_STORE_BLACK)
    some (r.1.convert Mode.RGB, [t.2, r.2, Op.save "PNG" 95])

/-- Embedding of `process_accessibility_screenshot` (lines 209-246). -/
def process_accessibility_screenshot (env : Env) (input : Option Img)
    (device_type : String) : Option (Img × List Op) :=
  match input with
  | none => none
  | some image0 =>
    let width := image0.width
    let height := image0.height
    let image1 := image0.convert Mode.RGBA
    let title_font_size : ℤ :=
      if device_type.startsWith "iPhone" then pyInt ((width : ℚ) * 0.06)
      else pyInt ((width : ℚ) * 0.045)
    let t := create_overlay_text env image1
      "Inclusive Gaming for All Romanian Heritage Enthusiasts"
      (pyInt ((width : ℚ) * 0.05), pyInt ((height : ℚ) * 0.08)) title_font_size ROMANIAN_BLUE
      "bold" 2 (some APP_STORE_WHITE)
    let feature_font_size : ℤ :=
      if device_type.startsWith "iPhone" then pyInt ((width : ℚ) * 0.035)
      else pyInt ((width : ℚ) * 0.025)
    let f := create_overlay_text env t.1
      "VoiceOver • Dynamic Type • High Contrast • Cultural Respect"
      (pyInt ((width : ℚ) * 0.05), pyInt ((height : ℚ) * 0.88)) feature_font_size
      APP_STORE_WHITE "regular" 1 (some APP_STORE_BLACK)
    some (f.1.convert Mode.RGB, [t.2, f.2, Op.save "PNG" 95])

/-- Embedding of `process_cultural_heritage_screenshot` (lines 248-285). -/
def process_cultural_heritage_screenshot (env : Env) (input : Option Img)
    (device_type : String) : Option (Img × List Op) :=
  match input with
  | none => none
  | some image0 =>
    let width := image0.width
    let height := image0.height
    let image1 := image0.convert Mode.RGBA
    let title_font_size : ℤ :=
      if device_type.startsWith "iPhone" then pyInt ((width : ℚ) * 0.06)
      else pyInt ((width : ℚ) * 0.045)
    let t := create_overlay_text env image1 "Preserving Romanian Card Game Traditions"
      (pyInt ((width : ℚ) * 0.05), pyInt ((height : ℚ) * 0.08)) title_font_size
      ROMANIAN_YELLOW "bold" 2 (some APP_STORE_BLACK)
    let heritage_font_size : ℤ :=
      if device_type.startsWith "iPhone" then pyInt ((width : ℚ) * 0.035)
      else pyInt ((width : ℚ) * 0.025)
    let h := create_overlay_text env t.1
      "Păstrăm tradițiile jocurilor românești cu mândrie"
      (pyInt ((width : ℚ) * 0.05), pyInt ((height : ℚ) * 0.88)) heritage_font_size
      APP_STORE_WHITE "regular" 1 (some APP_STORE_BLACK)
    some (h.1.convert Mode.RGB, [t.2, h.2, Op.save "PNG" 95])

/-- Embedding of `process_statistics_screenshot` (lines 287-324). -/
def process_statistics_screenshot (env : Env) (input : Option Img)
    (device_type : String) : Option (Img × List Op) :=
  match input with
  | none => none
  | some image0 =>
    let width := image0.width
    let height := image0.height
    let image1 := image0.convert Mode.RGBA
    let title_font_size : ℤ :=
      if device_type.startsWith "iPhone" then pyInt ((width : ℚ) * 0.06)
      else pyInt ((width : ℚ) * 0.045)
    let t := create_overlay_text env image1 "Track Your Romanian Card Game Journey"
      (pyInt ((width : ℚ) * 0.05), pyInt ((height : ℚ) * 0.08)) title_font_size ROMANIAN_BLUE
      "bold" 2 (some APP_STORE_WHITE)
    let stats_font_size : ℤ :=
      if device_type.startsWith "iPhone" then pyInt ((width : ℚ) * 0.035)
      else pyInt ((width : ℚ) * 0.025)
    let s := create_overlay_text env t.1 "Progress • Achievements • Cultural Milestones"
      (pyInt ((width : ℚ) * 0.05), pyInt ((height : ℚ) * 0.88)) stats_font_size
      APP_STORE_WHITE "regular" 1 (some APP_STORE_BLACK)
    some (s.1.convert Mode.RGB, [t.2, s.2, Op.save "PNG" 95])

/-- Embedding of `process_victory_screenshot` (lines 326-363). -/
def process_victory_screenshot (env : Env) (input : Option Img)
    (device_type : String) : Option (Img × List Op) :=
  match input with
  | none => none
  | some image0 =>
    let width := image0.width
    let height := image0.height
    let image1 := image0.convert Mode.RGBA
    let title_font_size : ℤ :=
      if device_type.startsWith "iPhone" then pyInt ((width : ℚ) * 0.06)
      else pyInt ((width : ℚ) * 0.045)
    let t := create_overlay_text env image1 "Celebrate Your Romanian Heritage Victories"
      (pyInt ((width : ℚ) * 0.05), pyInt ((height : ℚ) * 0.08)) title_font_size ROMANIAN_RED
      "bold" 2 (some APP_STORE_WHITE)
    let victory_font_size : ℤ :=
      if device_type.startsWith "iPhone" then pyInt ((width : ℚ) * 0.035)
      else pyInt ((width : ℚ) * 0.025)
    let v := create_overlay_text env t.1 "Felicitări! Ai câștigat cu stilul românesc!"
      (pyInt ((width : ℚ) * 0.05), pyInt ((height : ℚ) * 0.88)) victory_font_size
      ROMANIAN_YELLOW "regular" 1 (some APP_STORE_BLACK)
    some (v.1.convert Mode.RGB, [t.2, v.2, Op.save "PNG" 95])

/-- The type of a per-category processing routine. -/
abbrev ProcFn := Env → Option Img → String → Option (Img × List Op)

/-- The `screenshot_processors` dispatch table (lines 379-386). -/
def screenshot_processors : List (String × ProcFn) :=
  [("01_main_menu.png", process_main_menu_screenshot),
   ("02_gameplay.png", process_gameplay_screenshot),
   ("03_accessibility.png", process_accessibility_screenshot),
   ("04_cultural_heritage.png", process_cultural_heritage_screenshot),
   ("05_statistics.png", process_statistics_screenshot),
   ("06_victory.png", process_victory_screenshot)]

/-- The body of the per-file loop of `process_screenshots_for_device`
(lines 388-395): when the raw file exists run its routine (recording the
written file on success, the error report of the routine's `except` block on
failure), otherwise record the missing-file warning.  The console messages
printed inside the routines are surfaced here as the log component. -/
def device_step (env : Env) (device_type : String) (fp : String × ProcFn)
    (acc : List (String × Img) × List String) : List (String × Img) × List String :=
  if env.rawExists device_type fp.1 = true then
    match fp.2 env (env.openRaw device_type fp.1) device_type with
    | some r => ((fp.1, r.1) :: acc.1,
        ("Saved: " ++ device_type ++ "/Processed/" ++ fp.1) :: acc.2)
    | none => (acc.1,
        ("Error processing " ++ device_type ++ "/Raw/" ++ fp.1) :: acc.2)
  else (acc.1, ("Screenshot not found: " ++ device_type ++ "/Raw/" ++ fp.1) :: acc.2)

/-- Embedding of `process_screenshots_for_device` (lines 365-395): skip the device when its
raw directory is missing, otherwise run every entry of the dispatch table.
Yields the processed files written and the console log. -/
def process_screenshots_for_device (env : Env) (device_type : String) :
    List (String × Img) × List String :=
  if env.rawDirExists device_type = true then
    screenshot_processors.foldr (device_step env device_type) ([], [])
  else
    ([], ["Raw directory not found: " ++ device_type ++ "/Raw"])

/-- The fixed device-type list (line 399). -/
def device_types : List String :=
  ["iPhone_6.7", "iPhone_6.5", "iPhone_5.5", "iPad_12.9", "iPad_11.0"]

/-- Embedding of `load_metadata` (lines 32-39): the parsed file, or the empty mapping when
the file is missing (`FileNotFoundError` is caught and logged). -/
def load_metadata (metadataJson : Option Metadata) : Metadata :=
  match metadataJson with
  | some m => m
  | none => []

/-- The generator object: `__init__` (lines 27-30) stores the base directory
and the loaded metadata; the metadata is never read again. -/
structure ScreenshotOverlayGenerator where
  base_dir : String
  metadata : Metadata

/-- Embedding of `ScreenshotOverlayGenerator.__init__` (lines 27-30). -/
def generator_init (metadataJson : Option Metadata) (base_dir : String) :
    ScreenshotOverlayGenerator :=
  { base_dir := base_dir, metadata := load_metadata metadataJson }

/-- Embedding of `process_all_screenshots` (lines 397-409): process every device type in
order, unconditionally.  `gen` is the `self` object; no method reads its
state while processing. -/
def process_all_screenshots (gen : ScreenshotOverlayGenerator) (env : Env) :
    List (String × (List (String × Img) × List String)) :=
  device_types.map (fun d => (d, process_screenshots_for_device env d))

/-- Embedding of `main` (lines 411-418): construct the generator (loading the metadata
file) and run the batch. -/
def main_run (env : Env) (metadataJson : Option Metadata) (base_dir : String) :
    List (String × (List (String × Img) × List String)) :=
  process_all_screenshots (generator_init metadataJson base_dir) env

/-!  Concrete fixtures used to evaluate the theorems on explicit inputs. -/

/-- A concrete environment: no font file exists, every raw directory exists,
no raw screenshot exists, text rendering leaves the pixel grid unchanged. -/
def envW : Env :=
  { pathExists := fun _ => false
    truetypeOk := fun _ _ => true
    render := fun _ _ _ _ _ _ pix => pix
    rawDirExists := fun _ => true
    rawExists := fun _ _ => false
    openRaw := fun _ _ => none }

/-- A concrete 10 × 3 image. -/
def imgW : Img :=
  { mode := Mode.RGB, width := 10, height := 3, pix := fun _ _ => { r := 7, g := 7, b := 7, a := 255 } }

/-- A concrete 25 × 100 image. -/
def img25 : Img :=
  { mode := Mode.RGB, width := 25, height := 100, pix := fun _ _ => { r := 0, g := 0, b := 0, a := 255 } }

/-!  Helper lemmas about the gradient strip loop. -/

/-- Strips drawn so far never touch a pixel outside the band
`[x, xw] × [y, y + n]`. -/
lemma draw_strips_outside (x y xw : ℤ) (o : ℚ) (sc : ColorSpec) (H : ℕ)
    (pix0 : ℤ → ℤ → RGBA) (p q : ℤ) :
    ∀ n : ℕ, (p < x ∨ xw < p ∨ q < y ∨ y + (n : ℤ) < q) →
      draw_gradient_strips x y xw o sc H n pix0 p q = pix0 p q := by
  intro n
  induction n with
  | zero => intro _; rfl
  | succ m ih =>
    intro h
    show fillRect (draw_gradient_strips x y xw o sc H m pix0)
      x (y + (m : ℤ)) xw (y + (m : ℤ) + 1) (gradient_strip_color sc o H m) p q = pix0 p q
    have hcond : ¬(x ≤ p ∧ p ≤ xw ∧ y + (m : ℤ) ≤ q ∧ q ≤ y + (m : ℤ) + 1) := by
      push_cast at h
      omega
    have h' : p < x ∨ xw < p ∨ q < y ∨ y + (m : ℤ) < q := by
      push_cast at h
      omega
    unfold fillRect
    rw [if_neg hcond]
    exact ih h'

/-- Inside the band columns, the final value of row `y + i` is the colour of
strip `i` (strip `i` is the last one covering that row among strips
`0 .. n-1` when `i < n`). -/
lemma draw_strips_row (x y xw : ℤ) (o : ℚ) (sc : ColorSpec) (H : ℕ)
    (pix0 : ℤ → ℤ → RGBA) (p : ℤ) (i : ℕ) (hp1 : x ≤ p) (hp2 : p ≤ xw) :
    ∀ n : ℕ, i < n →
      draw_gradient_strips x y xw o sc H n pix0 p (y + (i : ℤ)) =
        gradient_strip_color sc o H i := by
  intro n
  induction n with
  | zero => intro h; exact absurd h (Nat.not_lt_zero i)
  | succ m ih =>
    intro h
    show fillRect (draw_gradient_strips x y xw o sc H m pix0)
      x (y + (m : ℤ)) xw (y + (m : ℤ) + 1) (gradient_strip_color sc o H m) p (y + (i : ℤ)) =
      gradient_strip_color sc o H i
    rcases Nat.lt_succ_iff_lt_or_eq.mp h with hlt | heq
    · unfold fillRect
      rw [if_neg (by omega)]
      exact ih hlt
    · subst heq
      unfold fillRect
      rw [if_pos ⟨hp1, hp2, le_refl _, by omega⟩]

/-- Claim C1 (amended): within the band columns, the overlay built by
`add_gradient_overlay` is a per-row quantized top-to-bottom fade: the row at
offset `i` (`0 ≤ i < H`) has alpha `int(opacity * 255 * (1 - i/H))`; in
particular the topmost blended row has alpha `int(opacity * 255)` and the
bottommost row of the region (offset `H - 1`) has alpha
`int(opacity * 255 / H)` — which is 0 only when `opacity * 255 < H`, not in
general. -/
theorem gradient_row_alpha_profile (base : ℕ × ℕ) (sc : ColorSpec) (x y w : ℤ)
    (H : ℕ) (o : ℚ) (p : ℤ) (hH : 1 ≤ H) (hp1 : x ≤ p) (hp2 : p ≤ x + w) :
    (∀ i : ℕ, i < H →
      ((gradient_overlay_img base sc (x, y) (w, (H : ℤ)) o).pix p (y + (i : ℤ))).a =
        pyInt (o * 255 * (1 - (i : ℚ) / (H : ℚ)))) ∧
    ((gradient_overlay_img base sc (x, y) (w, (H : ℤ)) o).pix p y).a = pyInt (o * 255) ∧
    ((gradient_overlay_img base sc (x, y) (w, (H : ℤ)) o).pix p (y + ((H : ℤ) - 1))).a =
      pyInt (o * 255 * (1 / (H : ℚ))) := by
  have htoNat : ((H : ℤ)).toNat = H := by omega
  have hrow : ∀ i : ℕ, i < H →
      ((gradient_overlay_img base sc (x, y) (w, (H : ℤ)) o).pix p (y + (i : ℤ))).a =
        pyInt (o * 255 * (1 - (i : ℚ) / (H : ℚ))) := by
    intro i hi
    unfold gradient_overlay_img
    dsimp only
    rw [htoNat]
    rw [draw_strips_row x y (x + w) o sc H _ p i hp1 hp2 H hi]
    rfl
  refine ⟨hrow, ?_, ?_⟩
  · have h0 := hrow 0 (by omega)
    simpa using h0
  · have hb := hrow (H - 1) (by omega)
    have hcast : ((H - 1 : ℕ) : ℤ) = (H : ℤ) - 1 := by omega
    rw [hcast] at hb
    have hq : o * 255 * (1 - ((H - 1 : ℕ) : ℚ) / (H : ℚ)) = o * 255 * (1 / (H : ℚ)) := by
      have hH0 : (H : ℚ) ≠ 0 := Nat.cast_ne_zero.mpr (by omega)
      rw [Nat.cast_sub hH, Nat.cast_one]
      field_simp
    rw [hq] at hb
    exact hb

/-- Claim C1, counterexample to the claim as stated: for a region of height 2
at opacity 0.8 (the script's default), the bottommost row of the region has
alpha `int(0.8 * 255 * (1 - 1/2)) = 102`, not 0. -/
theorem gradient_bottom_row_alpha_ne_zero :
    ((gradient_overlay_img (10, 3) (ColorSpec.rgb 0 0 0) (0, 0) (9, 2) (0.8 : ℚ)).pix 0 1).a = 102 ∧
    (102 : ℤ) ≠ 0 := by
  exact ⟨by with_unfolding_all rfl, by decide⟩

/-- Evaluation of `gradient_row_alpha_profile` on a concrete region: height 2,
opacity 1/2; the top row has alpha `int(127.5) = 127` and the bottom row of
the region has alpha `int(63.75) = 63`. -/
theorem gradient_row_alpha_profile_witness :
    ((gradient_overlay_img (10, 3) (ColorSpec.rgb 0 0 0) (0, 0) (9, ((2 : ℕ) : ℤ)) ((1 : ℚ)/2)).pix 0 0).a = 127 ∧
    ((gradient_overlay_img (10, 3) (ColorSpec.rgb 0 0 0) (0, 0) (9, ((2 : ℕ) : ℤ)) ((1 : ℚ)/2)).pix 0 (0 + (((2 : ℕ) : ℤ) - 1))).a = 63 := by
  obtain ⟨-, htop, hbot⟩ := gradient_row_alpha_profile (10, 3) (ColorSpec.rgb 0 0 0) 0 0 9 2
    ((1 : ℚ)/2) 0 (by decide) (by decide) (by decide)
  exact ⟨htop.trans (by with_unfolding_all rfl), hbot.trans (by with_unfolding_all rfl)⟩

/-!  Frame effect of `add_gradient_overlay` (claim C10). -/

/-- Outside the drawn band (columns `x .. x+w`, rows `y .. y+h`, both ends
inclusive) the gradient overlay is fully transparent. -/
lemma gradient_overlay_outside (base : ℕ × ℕ) (sc : ColorSpec) (x y w h : ℤ) (o : ℚ)
    (p q : ℤ) (hout : p < x ∨ x + w < p ∨ q < y ∨ y + h < q) :
    (gradient_overlay_img base sc (x, y) (w, h) o).pix p q =
      { r := 0, g := 0, b := 0, a := 0 } := by
  unfold gradient_overlay_img
  dsimp only
  rcases le_or_lt 0 h with hpos | hneg
  · exact draw_strips_outside x y (x + w) o sc h.toNat _ p q h.toNat (by omega)
  · have h0 : h.toNat = 0 := by omega
    rw [h0]
    rfl

lemma convert_pix_r (im : Img) (m : Mode) (p q : ℤ) :
    ((im.convert m).pix p q).r = (im.pix p q).r := by
  unfold Img.convert
  dsimp only
  split_ifs <;> rfl

lemma convert_pix_g (im : Img) (m : Mode) (p q : ℤ) :
    ((im.convert m).pix p q).g = (im.pix p q).g := by
  unfold Img.convert
  dsimp only
  split_ifs <;> rfl

lemma convert_pix_b (im : Img) (m : Mode) (p q : ℤ) :
    ((im.convert m).pix p q).b = (im.pix p q).b := by
  unfold Img.convert
  dsimp only
  split_ifs <;> rfl

/-- Compositing a fully transparent source pixel keeps the destination pixel
(Pillow's short-circuit). -/
lemma alpha_composite_pix_zero (dst : RGBA) :
    alpha_composite_pix dst { r := 0, g := 0, b := 0, a := 0 } = dst := rfl

/-- The pixel grid produced by `add_gradient_overlay`: the composite of the
`RGBA`-converted base with the overlay, flattened with alpha 255. -/
lemma add_gradient_overlay_pix_eq (image : Img) (sc ec : ColorSpec)
    (position size : ℤ × ℤ) (o : ℚ) (p q : ℤ) :
    (add_gradient_overlay image sc ec position size o).1.pix p q =
      { alpha_composite_pix ((image.convert Mode.RGBA).pix p q)
          ((gradient_overlay_img (image.width, image.height) sc position size o).pix p q)
        with a := 255 } := by
  simp [add_gradient_overlay, Img.convert]

/-- Claim C10: `add_gradient_overlay` leaves every pixel strictly outside its
drawn band unchanged in the colour channels.  The band drawn by the strips
extends one pixel beyond the requested size in each direction — strip `i`
fills the box `[x, y+i, x+width, y+i+1]` inclusive of both corners — so the
modifiable region is columns `x .. x+width` and rows `y .. y+height`, and
every pixel outside it keeps the colour channels of the input image. -/
theorem gradient_frame_effect (image : Img) (sc ec : ColorSpec) (x y w h : ℤ) (o : ℚ)
    (p q : ℤ) (hout : p < x ∨ x + w < p ∨ q < y ∨ y + h < q) :
    (((add_gradient_overlay image sc ec (x, y) (w, h) o).1.pix p q).r = (image.pix p q).r) ∧
    (((add_gradient_overlay image sc ec (x, y) (w, h) o).1.pix p q).g = (image.pix p q).g) ∧
    (((add_gradient_overlay image sc ec (x, y) (w, h) o).1.pix p q).b = (image.pix p q).b) := by
  have hover := gradient_overlay_outside (image.width, image.height) sc x y w h o p q hout
  have hpix := add_gradient_overlay_pix_eq image sc ec (x, y) (w, h) o p q
  rw [hover, alpha_composite_pix_zero] at hpix
  refine ⟨?_, ?_, ?_⟩
  · rw [hpix]
    exact convert_pix_r image Mode.RGBA p q
  · rw [hpix]
    exact convert_pix_g image Mode.RGBA p q
  · rw [hpix]
    exact convert_pix_b image Mode.RGBA p q

/-- Evaluation of `gradient_frame_effect` at a concrete pixel outside the
band. -/
theorem gradient_frame_effect_witness :
    (((add_gradient_overlay imgW (ColorSpec.rgb 0 0 0) (ColorSpec.rgb 0 0 0) (0, 0) (2, 2)
        ((1 : ℚ)/2)).1.pix 5 5).r = (imgW.pix 5 5).r) ∧
    (((add_gradient_overlay imgW (ColorSpec.rgb 0 0 0) (ColorSpec.rgb 0 0 0) (0, 0) (2, 2)
        ((1 : ℚ)/2)).1.pix 5 5).g = (imgW.pix 5 5).g) ∧
    (((add_gradient_overlay imgW (ColorSpec.rgb 0 0 0) (ColorSpec.rgb 0 0 0) (0, 0) (2, 2)
        ((1 : ℚ)/2)).1.pix 5 5).b = (imgW.pix 5 5).b) :=
  gradient_frame_effect imgW (ColorSpec.rgb 0 0 0) (ColorSpec.rgb 0 0 0) 0 0 2 2 ((1 : ℚ)/2)
    5 5 (by decide)

/-- Claim C2: each of the six category routines, run on an opened image of
size W × H, writes an output image of size exactly W × H (for every
environment and device-type label, which includes the five device types of
the script). -/
theorem processors_preserve_dimensions (env : Env) (d : String) (im : Img) :
    ((process_main_menu_screenshot env (some im) d).map (fun r => (r.1.width, r.1.height)) =
      some (im.width, im.height)) ∧
    ((process_gameplay_screenshot env (some im) d).map (fun r => (r.1.width, r.1.height)) =
      some (im.width, im.height)) ∧
    ((process_accessibility_screenshot env (some im) d).map (fun r => (r.1.width, r.1.height)) =
      some (im.width, im.height)) ∧
    ((process_cultural_heritage_screenshot env (some im) d).map (fun r => (r.1.width, r.1.height)) =
      some (im.width, im.height)) ∧
    ((process_statistics_screenshot env (some im) d).map (fun r => (r.1.width, r.1.height)) =
      some (im.width, im.height)) ∧
    ((process_victory_screenshot env (some im) d).map (fun r => (r.1.width, r.1.height)) =
      some (im.width, im.height)) :=
  ⟨rfl, rfl, rfl, rfl, rfl, rfl⟩

/-- Modelled from the spec: the `round(width * fraction)` font-size formula
the spec states, with rounding of halves upward (at every input compared in
this file, Python's half-to-even `round` agrees).  `⌊q + 1/2⌋` computed on the
reduced fraction. -/
def specRound (q : ℚ) : ℤ :=
  Int.fdiv (2 * q.num + (q.den : ℤ)) (2 * (q.den : ℤ))

/-- Claim C3 (amended): the title font size is `int(width * fraction)` —
Python `int()` truncation, not `round` — with fraction 0.06 (phone) / 0.045
(non-phone) for the gameplay, accessibility, heritage, statistics and victory
categories, and 0.08 (phone) / 0.06 (non-phone) for the main menu; width 1284
on the 0.06 tier yields 77 pixels. -/
theorem title_font_size_formula (env : Env) (d : String) (im : Img) :
    ((process_gameplay_screenshot env (some im) d).map
        (fun r => (r.2.filterMap Op.textFontSizeOf).head?) =
      some (some (if d.startsWith "iPhone" then pyInt ((im.width : ℚ) * 0.06)
                  else pyInt ((im.width : ℚ) * 0.045)))) ∧
    ((process_accessibility_screenshot env (some im) d).map
        (fun r => (r.2.filterMap Op.textFontSizeOf).head?) =
      some (some (if d.startsWith "iPhone" then pyInt ((im.width : ℚ) * 0.06)
                  else pyInt ((im.width : ℚ) * 0.045)))) ∧
    ((process_cultural_heritage_screenshot env (some im) d).map
        (fun r => (r.2.filterMap Op.textFontSizeOf).head?) =
      some (some (if d.startsWith "iPhone" then pyInt ((im.width : ℚ) * 0.06)
                  else pyInt ((im.width : ℚ) * 0.045)))) ∧
    ((process_statistics_screenshot env (some im) d).map
        (fun r => (r.2.filterMap Op.textFontSizeOf).head?) =
      some (some (if d.startsWith "iPhone" then pyInt ((im.width : ℚ) * 0.06)
                  else pyInt ((im.width : ℚ) * 0.045)))) ∧
    ((process_victory_screenshot env (some im) d).map
        (fun r => (r.2.filterMap Op.textFontSizeOf).head?) =
      some (some (if d.startsWith "iPhone" then pyInt ((im.width : ℚ) * 0.06)
                  else pyInt ((im.width : ℚ) * 0.045)))) ∧
    ((process_main_menu_screenshot env (some im) d).map
        (fun r => (r.2.filterMap Op.textFontSizeOf).head?) =
      some (some (if d.startsWith "iPhone" then pyInt ((im.width : ℚ) * 0.08)
                  else pyInt ((im.width : ℚ) * 0.06)))) ∧
    pyInt ((1284 : ℚ) * 0.06) = 77 :=
  ⟨rfl, rfl, rfl, rfl, rfl, rfl, by with_unfolding_all rfl⟩

/-- Claim C3, counterexample to the claim as stated: at width 25 on a phone
label the gameplay title font size is `int(25 * 0.06) = int(1.5) = 1`, while
`round(25 * 0.06) = 2`. -/
theorem title_font_size_not_round :
    ((process_gameplay_screenshot envW (some img25) "iPhone_6.7").map
        (fun r => (r.2.filterMap Op.textFontSizeOf).head?) = some (some 1)) ∧
    specRound ((25 : ℚ) * 0.06) = 2 ∧ (1 : ℤ) ≠ 2 := by
  refine ⟨by with_unfolding_all rfl, by with_unfolding_all rfl, by decide⟩

/-- Claim C5: each category routine performs exactly one gradient pass for
the main-menu category and none for the other five, draws its title text
first and its footer text last with the category-specific literal strings and
colours, flattens to the opaque `RGB` mode, and ends with `save` as `PNG` at
quality 95. -/
theorem category_pass_structure (env : Env) (d : String) (im : Img) :
    ((process_main_menu_screenshot env (some im) d).map
        (fun r => ((r.2.filter Op.isGradientOp).length,
                   (r.2.filterMap Op.textContentOf).head?,
                   (r.2.filterMap Op.textContentOf).getLast?,
                   (r.2.filterMap Op.textColorOf).head?,
                   (r.2.filterMap Op.textColorOf).getLast?,
                   r.1.mode, r.2.getLast?)) =
      some (1, some "Experience Authentic Romanian Card Gaming",
            some "• Authentic Romanian Rules • Premium AI Opponent • Cultural Heritage Design",
            some APP_STORE_WHITE, some APP_STORE_WHITE,
            Mode.RGB, some (Op.save "PNG" 95))) ∧
    ((process_gameplay_screenshot env (some im) d).map
        (fun r => ((r.2.filter Op.isGradientOp).length,
                   (r.2.filterMap Op.textContentOf).head?,
                   (r.2.filterMap Op.textContentOf).getLast?,
                   (r.2.filterMap Op.textColorOf).head?,
                   (r.2.filterMap Op.textColorOf).getLast?,
                   r.1.mode, r.2.getLast?)) =
      some (0, some "7s Beat Any Card - Traditional Romanian Rules",
            some "Șaptele bate orice carte • Authentic Romanian Strategy",
            some ROMANIAN_RED, some APP_STORE_WHITE,
            Mode.RGB, some (Op.save "PNG" 95))) ∧
    ((process_accessibility_screenshot env (some im) d).map
        (fun r => ((r.2.filter Op.isGradientOp).length,
                   (r.2.filterMap Op.textContentOf).head?,
                   (r.2.filterMap Op.textContentOf).getLast?,
                   (r.2.filterMap Op.textColorOf).head?,
                   (r.2.filterMap Op.textColorOf).getLast?,
                   r.1.mode, r.2.getLast?)) =
      some (0, some "Inclusive Gaming for All Romanian Heritage Enthusiasts",
            some "VoiceOver • Dynamic Type • High Contrast • Cultural Respect",
            some ROMANIAN_BLUE, some APP_STORE_WHITE,
            Mode.RGB, some (Op.save "PNG" 95))) ∧
    ((process_cultural_heritage_screenshot env (some im) d).map
        (fun r => ((r.2.filter Op.isGradientOp).length,
                   (r.2.filterMap Op.textContentOf).head?,
                   (r.2.filterMap Op.textContentOf).getLast?,
                   (r.2.filterMap Op.textColorOf).head?,
                   (r.2.filterMap Op.textColorOf).getLast?,
                   r.1.mode, r.2.getLast?)) =
      some (0, some "Preserving Romanian Card Game Traditions",
            some "Păstrăm tradițiile jocurilor românești cu mândrie",
            some ROMANIAN_YELLOW, some APP_STORE_WHITE,
            Mode.RGB, some (Op.save "PNG" 95))) ∧
    ((process_statistics_screenshot env (some im) d).map
        (fun r => ((r.2.filter Op.isGradientOp).length,
                   (r.2.filterMap Op.textContentOf).head?,
                   (r.2.filterMap Op.textContentOf).getLast?,
                   (r.2.filterMap Op.textColorOf).head?,
                   (r.2.filterMap Op.textColorOf).getLast?,
                   r.1.mode, r.2.getLast?)) =
      some (0, some "Track Your Romanian Card Game Journey",
            some "Progress • Achievements • Cultural Milestones",
            some ROMANIAN_BLUE, some APP_STORE_WHITE,
            Mode.RGB, some (Op.save "PNG" 95))) ∧
    ((process_victory_screenshot env (some im) d).map
        (fun r => ((r.2.filter Op.isGradientOp).length,
                   (r.2.filterMap Op.textContentOf).head?,
                   (r.2.filterMap Op.textContentOf).getLast?,
                   (r.2.filterMap Op.textColorOf).head?,
                   (r.2.filterMap Op.textColorOf).getLast?,
                   r.1.mode, r.2.getLast?)) =
      some (0, some "Celebrate Your Romanian Heritage Victories",
            some "Felicitări! Ai câștigat cu stilul românesc!",
            some ROMANIAN_RED, some ROMANIAN_YELLOW,
            Mode.RGB, some (Op.save "PNG" 95))) :=
  ⟨rfl, rfl, rfl, rfl, rfl, rfl⟩

/-!  Helper lemmas about the per-device loop (claims C4 and C6). -/

/-- Every iteration of the per-file loop appends exactly one console line,
whatever branch it takes. -/
lemma device_step_log_length (env : Env) (d : String) (fp : String × ProcFn)
    (acc : List (String × Img) × List String) :
    ((device_step env d fp acc).2).length = acc.2.length + 1 := by
  unfold device_step
  split_ifs with h
  · cases hm : fp.2 env (env.openRaw d fp.1) d with
    | none => rfl
    | some r => rfl
  · rfl

/-- The per-device loop emits one console line per dispatch-table entry. -/
lemma device_fold_log_length (env : Env) (d : String) (l : List (String × ProcFn))
    (acc : List (String × Img) × List String) :
    ((l.foldr (device_step env d) acc).2).length = l.length + acc.2.length := by
  induction l with
  | nil => simp
  | cons fp rest ih =>
    rw [List.foldr_cons, device_step_log_length, ih, List.length_cons]
    omega

/-- The per-file loop never removes an already-recorded output. -/
lemma device_step_mem_mono (env : Env) (d : String) (fp : String × ProcFn)
    (acc : List (String × Img) × List String) (e : String × Img) (he : e ∈ acc.1) :
    e ∈ (device_step env d fp acc).1 := by
  unfold device_step
  split_ifs with h
  · cases hm : fp.2 env (env.openRaw d fp.1) d with
    | none => exact he
    | some r => exact List.mem_cons_of_mem _ he
  · exact he

/-- A recorded output always comes from a category whose raw file exists. -/
lemma device_fold_mem_rawExists (env : Env) (d : String) (g : String) (img : Img) :
    ∀ l : List (String × ProcFn),
      (g, img) ∈ (l.foldr (device_step env d) ([], [])).1 → env.rawExists d g = true := by
  intro l
  induction l with
  | nil =>
    intro h
    simp at h
  | cons fp rest ih =>
    intro h
    rw [List.foldr_cons] at h
    by_cases hex : env.rawExists d fp.1 = true
    · unfold device_step at h
      rw [if_pos hex] at h
      cases hm : fp.2 env (env.openRaw d fp.1) d with
      | none =>
        rw [hm] at h
        exact ih h
      | some r =>
        rw [hm] at h
        rcases List.mem_cons.mp h with heq | htail
        · have hg : g = fp.1 := congrArg Prod.fst heq
          rw [hg]
          exact hex
        · exact ih htail
    · unfold device_step at h
      rw [if_neg hex] at h
      exact ih h

/-- A table entry whose raw file exists and whose routine succeeds always
records its output. -/
lemma device_fold_mem_of_proc (env : Env) (d : String) (g : String) (proc : ProcFn)
    (img : Img) (ops : List Op) (hex : env.rawExists d g = true)
    (hres : proc env (env.openRaw d g) d = some (img, ops)) :
    ∀ l : List (String × ProcFn), (g, proc) ∈ l →
      (g, img) ∈ (l.foldr (device_step env d) ([], [])).1 := by
  intro l
  induction l with
  | nil =>
    intro h
    simp at h
  | cons fp rest ih =>
    intro hmem
    rw [List.foldr_cons]
    rcases List.mem_cons.mp hmem with heq | htail
    · rw [← heq]
      unfold device_step
      dsimp only
      rw [if_pos hex, hres]
      exact List.mem_cons_self _ _
    · exact device_step_mem_mono env d fp _ _ (ih htail)

/-- Claim C4: no modelled failure aborts the run.  For every environment —
whatever raw directories, raw files, font files are missing and whatever
`Image.open` raises — the batch over the five device types completes and
visits all six categories of every device whose raw directory exists; a
missing metadata file yields the empty metadata set; an exception while
opening a screenshot is contained in its routine. -/
theorem batch_run_total (env : Env) (base_dir : String) :
    (main_run env none base_dir).map Prod.fst = device_types ∧
    load_metadata none = [] ∧
    (∀ d : String, env.rawDirExists d = true →
      ((process_screenshots_for_device env d).2).length = screenshot_processors.length) ∧
    (∀ (d : String) (fp : String × ProcFn), fp ∈ screenshot_processors →
      fp.2 env none d = none) := by
  refine ⟨rfl, rfl, ?_, ?_⟩
  · intro d hd
    unfold process_screenshots_for_device
    rw [hd, if_pos rfl, device_fold_log_length]
    simp
  · intro d fp hfp
    simp only [screenshot_processors, List.mem_cons, List.not_mem_nil, or_false] at hfp
    rcases hfp with h | h | h | h | h | h <;> subst h <;> rfl

/-- Evaluation of `batch_run_total` on a concrete environment whose raw
directories exist but whose raw screenshots are all missing. -/
theorem batch_run_total_witness :
    (main_run envW none "base").map Prod.fst = device_types ∧
    load_metadata none = [] ∧
    ((process_screenshots_for_device envW "iPhone_6.7").2).length =
      screenshot_processors.length ∧
    process_main_menu_screenshot envW none "iPhone_6.7" = none := by
  obtain ⟨h1, h2, h3, h4⟩ := batch_run_total envW "base"
  exact ⟨h1, h2, h3 "iPhone_6.7" rfl,
    h4 "iPhone_6.7" ("01_main_menu.png", process_main_menu_screenshot)
      (List.mem_cons_self _ _)⟩

/-- Claim C6: when the raw file of one of the six known filenames is absent
for a device whose raw directory exists, no processed file is recorded for
that category, and every other category whose raw file exists and whose
routine succeeds is still processed.  (`process_screenshots_for_device` is a
total function: no exception escapes it.) -/
theorem missing_raw_file_skipped (env : Env) (d f : String)
    (hf : f ∈ screenshot_processors.map Prod.fst)
    (hmiss : env.rawExists d f = false) (hdir : env.rawDirExists d = true) :
    (∀ img : Img, (f, img) ∉ (process_screenshots_for_device env d).1) ∧
    (∀ (g : String) (proc : ProcFn) (img : Img) (ops : List Op),
      (g, proc) ∈ screenshot_processors → env.rawExists d g = true →
      proc env (env.openRaw d g) d = some (img, ops) →
      (g, img) ∈ (process_screenshots_for_device env d).1) := by
  constructor
  · intro img hmem
    unfold process_screenshots_for_device at hmem
    rw [hdir, if_pos rfl] at hmem
    have hraw := device_fold_mem_rawExists env d f img screenshot_processors hmem
    rw [hmiss] at hraw
    exact Bool.false_ne_true hraw
  · intro g proc img ops hmem hex hres
    unfold process_screenshots_for_device
    rw [hdir, if_pos rfl]
    exact device_fold_mem_of_proc env d g proc img ops hex hres screenshot_processors hmem

/-- Evaluation of `missing_raw_file_skipped` on a concrete environment with
no raw screenshots. -/
theorem missing_raw_file_skipped_witness :
    ("01_main_menu.png", imgW) ∉ (process_screenshots_for_device envW "iPad_11.0").1 :=
  (missing_raw_file_skipped envW "iPad_11.0" "01_main_menu.png" (by decide) rfl rfl).1 imgW

/-- Claim C7: when none of the font files of the fixed search list exists,
`create_overlay_text` completes normally: it silently falls back to the
built-in default font and still renders the text (the image's pixel grid is
rewritten by the renderer with `Font.default`, with dimensions kept). -/
theorem text_drawing_font_fallback (env : Env) (image : Img) (text : String)
    (position : ℤ × ℤ) (font_size : ℤ) (color weight : String) (stroke_width : ℕ)
    (stroke_fill : Option String)
    (hfonts : ∀ fp ∈ font_paths, env.pathExists fp = false) :
    create_overlay_text env image text position font_size color weight stroke_width
        stroke_fill =
      ({ image with
          pix := env.render Font.default text position color
                   (if 0 < stroke_width ∧ stroke_fill.isSome then stroke_width else 0)
                   (if 0 < stroke_width ∧ stroke_fill.isSome then stroke_fill else none)
                   image.pix },
       Op.text Font.default text position font_size color
         (if 0 < stroke_width ∧ stroke_fill.isSome then stroke_width else 0)
         (if 0 < stroke_width ∧ stroke_fill.isSome then stroke_fill else none)) := by
  have hfind : font_paths.find? (fun path => env.pathExists path) = none :=
    List.find?_eq_none.mpr (fun fp hfp => by simp [hfonts fp hfp])
  unfold create_overlay_text get_font_path
  rw [hfind]

/-- Evaluation of `text_drawing_font_fallback` on a concrete environment with
no font files. -/
theorem text_drawing_font_fallback_witness :
    create_overlay_text envW imgW "Salut" (0, 0) 12 APP_STORE_WHITE "bold" 0 none =
      ({ imgW with
          pix := envW.render Font.default "Salut" (0, 0) APP_STORE_WHITE 0 none imgW.pix },
       Op.text Font.default "Salut" (0, 0) 12 APP_STORE_WHITE 0 none) :=
  text_drawing_font_fallback envW imgW "Salut" (0, 0) 12 APP_STORE_WHITE "bold" 0 none
    (by decide)

/-- Claim C8: the loaded metadata is never consulted by any processing
routine — two runs that differ only in the (present) metadata contents
produce identical outputs. -/
theorem metadata_noninterference (env : Env) (base_dir : String) (m1 m2 : Metadata) :
    main_run env (some m1) base_dir = main_run env (some m2) base_dir := rfl

/-- Claim C9: the `weight` argument of `create_overlay_text` has no effect:
font-path selection ignores it, so drawing with weight `bold` and with weight
`regular` produce the same result for every environment, image, text,
position, size, colour and stroke settings. -/
theorem weight_has_no_effect (env : Env) (image : Img) (text : String) (position : ℤ × ℤ)
    (font_size : ℤ) (color : String) (stroke_width : ℕ) (stroke_fill : Option String) :
    create_overlay_text env image text position font_size color "bold" stroke_width
        stroke_fill =
      create_overlay_text env image text position font_size color "regular" stroke_width
        stroke_fill := rfl

end AppStoreScreenshots
